import Mathlib

/-!
Verification of the `secrets` resource of the polygon-edge Terraform
provider (`pkg/secrets/secrets_resource.go` and `main.go`).

The repository itself contains no cryptography: it wires together opaque
external collaborators (the polygon-edge `crypto`/`network` packages, the
libp2p `peer` package, and the terraform-plugin-framework state store).
Those collaborators are modelled as an environment `Env` providing the
outcome of each external call made during one `Create` invocation; the
resource's own control flow is translated from the Go source verbatim.
-/

/-- Severity of a terraform diagnostic. `AddError` produces `error`;
`State.Set` may also return warnings. -/
inductive Severity
  | error
  | warning
  deriving DecidableEq, Repr

/-- A terraform diagnostic: severity, summary and detail, as produced by
`resp.Diagnostics.AddError(summary, detail)`. -/
structure Diagnostic where
  severity : Severity
  summary : String
  detail : String
  deriving DecidableEq, Repr

/-- Whether one diagnostic is an error. -/
def Diagnostic.isError (d : Diagnostic) : Bool :=
  d.severity == Severity.error

/-- `diag.Diagnostics.HasError()`: true iff the list holds an error. -/
def hasError (ds : List Diagnostic) : Bool :=
  ds.any Diagnostic.isError

/-- Opaque carrier for an ECDSA public key (`validatorKey.PublicKey`). -/
structure ECDSAPublicKey where
  val : Nat
  deriving DecidableEq, Repr

/-- Opaque carrier for the ECDSA private key returned by
`crypto.GenerateAndEncodeECDSAPrivateKey`; only its `PublicKey`
projection is used by the resource. -/
structure ECDSAPrivateKey where
  PublicKey : ECDSAPublicKey
  deriving DecidableEq, Repr

/-- Opaque carrier for a BLS secret key. -/
structure BLSSecretKey where
  val : Nat
  deriving DecidableEq, Repr

/-- Opaque carrier for a libp2p private key. -/
structure Libp2pPrivKey where
  val : Nat
  deriving DecidableEq, Repr

/-- Opaque carrier for a libp2p peer identifier (`peer.ID`). -/
structure PeerID where
  val : Nat
  deriving DecidableEq, Repr

/-- Opaque carrier for a polygon-edge address (`types.Address`). -/
structure Address where
  val : Nat
  deriving DecidableEq, Repr

/-- The six-field record the resource stores, mirroring Go struct
`secretsDataSourceModel` (all six terraform values are strings). -/
structure secretsDataSourceModel where
  ValidatorKeyEncoded : String
  ValidatorBLSKeyEncoded : String
  NetworkKeyEncoded : String
  Address : String
  BLSPubkey : String
  NodeID : String
  deriving DecidableEq, Repr

/-- Outcomes of the opaque external collaborators for one invocation:
the three generators, the three derivation functions, the two string
renderings, and the framework's `State.Set` (which returns diagnostics;
the state is replaced atomically iff they carry no error). -/
structure Env where
  GenerateAndEncodeECDSAPrivateKey : Except String (ECDSAPrivateKey × String)
  GenerateAndEncodeBLSSecretKey : Except String (BLSSecretKey × String)
  BLSSecretKeyToPubkeyBytes : BLSSecretKey → Except String String
  GenerateAndEncodeLibp2pKey : Except String (Libp2pPrivKey × String)
  IDFromPrivateKey : Libp2pPrivKey → Except String PeerID
  PubKeyToAddress : ECDSAPublicKey → Address
  AddressString : Address → String
  PeerIDString : PeerID → String
  StateSet : secretsDataSourceModel → List Diagnostic

/-- The caller-supplied content of a `resource.CreateRequest` (plan and
config); the Go method discards it with a ptr-free blank identifier. -/
structure CreateRequest where
  Plan : Option secretsDataSourceModel
  Config : Option secretsDataSourceModel
  deriving DecidableEq, Repr

/-- A `resource.CreateResponse`: the state being built and the
accumulated diagnostics. -/
structure CreateResponse where
  State : Option secretsDataSourceModel
  Diagnostics : List Diagnostic
  deriving DecidableEq, Repr

/-- The steps of the creation sequence, in source order. -/
inductive Step
  | genECDSA
  | genBLS
  | blsPubkeyDerive
  | genLibp2p
  | nodeIDDerive
  | addressDerive
  deriving DecidableEq, Repr

/-- `secretsResource.Create`, translated clause by clause from the Go
source, additionally returning the list of steps attempted (each
external call emits its step when reached, in textual order; the address
derivation `crypto.PubKeyToAddress(...).String()` is evaluated while the
record literal passed to `State.Set` is built, after the node-ID
derivation). -/
def createRun (env : Env) (_req : CreateRequest) (resp : CreateResponse) :
    CreateResponse × List Step :=
  match env.GenerateAndEncodeECDSAPrivateKey with
  | .error err =>
    ({ resp with Diagnostics :=
        resp.Diagnostics ++ [⟨.error, "Unable to generate ECDSA key", err⟩] },
      [.genECDSA])
  | .ok (validatorKey, validatorKeyEncoded) =>
    match env.GenerateAndEncodeBLSSecretKey with
    | .error err =>
      ({ resp with Diagnostics :=
          resp.Diagnostics ++ [⟨.error, "Unable to create generate BLS ket", err⟩] },
        [.genECDSA, .genBLS])
    | .ok (blsSecretKey, blsSecretKeyEncoded) =>
      match env.BLSSecretKeyToPubkeyBytes blsSecretKey with
      | .error err =>
        ({ resp with Diagnostics :=
            resp.Diagnostics ++ [⟨.error, "Unable to get BLS public key", err⟩] },
          [.genECDSA, .genBLS, .blsPubkeyDerive])
      | .ok pubkeyBytes =>
        match env.GenerateAndEncodeLibp2pKey with
        | .error err =>
          ({ resp with Diagnostics :=
              resp.Diagnostics ++ [⟨.error, "Unable to generate network key", err⟩] },
            [.genECDSA, .genBLS, .blsPubkeyDerive, .genLibp2p])
        | .ok (libp2pKey, libp2pKeyEncoded) =>
          match env.IDFromPrivateKey libp2pKey with
          | .error err =>
            ({ resp with Diagnostics :=
                resp.Diagnostics ++ [⟨.error, "Unable to get nodeID", err⟩] },
              [.genECDSA, .genBLS, .blsPubkeyDerive, .genLibp2p, .nodeIDDerive])
          | .ok nodeID =>
            let record : secretsDataSourceModel :=
              { ValidatorKeyEncoded := validatorKeyEncoded
                Address := env.AddressString (env.PubKeyToAddress validatorKey.PublicKey)
                ValidatorBLSKeyEncoded := blsSecretKeyEncoded
                BLSPubkey := pubkeyBytes
                NetworkKeyEncoded := libp2pKeyEncoded
                NodeID := env.PeerIDString nodeID }
            let diags := env.StateSet record
            ({ State := if hasError diags then resp.State else some record
               Diagnostics := resp.Diagnostics ++ diags },
              [.genECDSA, .genBLS, .blsPubkeyDerive, .genLibp2p, .nodeIDDerive,
               .addressDerive])

/-- `secretsResource.Create`: the response part of `createRun`. -/
def Create (env : Env) (req : CreateRequest) (resp : CreateResponse) :
    CreateResponse :=
  (createRun env req resp).1

/-- A `resource.ReadRequest` carries the current state. -/
structure ReadRequest where
  State : Option secretsDataSourceModel
  deriving DecidableEq, Repr

/-- A `resource.ReadResponse`, pre-populated by the framework with the
current state. -/
structure ReadResponse where
  State : Option secretsDataSourceModel
  Diagnostics : List Diagnostic
  deriving DecidableEq, Repr

/-- `secretsResource.Read`: the body only emits a debug log; the
response (hence the state) is returned untouched. -/
def Read (_req : ReadRequest) (resp : ReadResponse) : ReadResponse :=
  resp

/-- A `resource.UpdateRequest` carries the proposed plan, config and
the prior state. -/
structure UpdateRequest where
  Plan : Option secretsDataSourceModel
  Config : Option secretsDataSourceModel
  State : Option secretsDataSourceModel
  deriving DecidableEq, Repr

/-- A `resource.UpdateResponse`, pre-populated with the prior state. -/
structure UpdateResponse where
  State : Option secretsDataSourceModel
  Diagnostics : List Diagnostic
  deriving DecidableEq, Repr

/-- `secretsResource.Update`: an empty body; the response is returned
untouched. -/
def Update (_req : UpdateRequest) (resp : UpdateResponse) : UpdateResponse :=
  resp

/-- A `resource.DeleteRequest` carries the state being removed. -/
structure DeleteRequest where
  State : Option secretsDataSourceModel
  deriving DecidableEq, Repr

/-- A `resource.DeleteResponse`. -/
structure DeleteResponse where
  Diagnostics : List Diagnostic
  deriving DecidableEq, Repr

/-- `secretsResource.Delete`: the body only emits a debug log; no
diagnostic is added and no other effect is performed, which the
framework takes as acknowledgment of the removal of the state entry. -/
def Delete (_req : DeleteRequest) (resp : DeleteResponse) : DeleteResponse :=
  resp

/-- `secretsResource.Metadata`: the type name is the provider type name
suffixed with "_secrets". -/
def Metadata (providerTypeName : String) : String :=
  providerTypeName ++ "_secrets"

/-- One schema attribute; every attribute of this resource is a
`schema.StringAttribute` in the source. -/
structure StringAttribute where
  Computed : Bool
  Sensitive : Bool
  Description : String
  deriving DecidableEq, Repr

/-- The schema version set by `secretsResource.Schema`. -/
def schemaVersion : Nat := 1

/-- The attribute map built by `secretsResource.Schema`, in source
order. Omitted Go struct fields default to false. -/
def schemaAttributes : List (String × StringAttribute) :=
  [("validator_key_encoded",
    ⟨true, true,
      "Encoded validator key. Must be stored in a polygon-edge supported secrets manager."⟩),
   ("validator_bls_key_encoded",
    ⟨true, true,
      "Encoded validator BLS key. Must be stored in a polygon-edge supported secrets manager."⟩),
   ("network_key_encoded",
    ⟨true, true,
      "Encoded network key. Must be stored in a polygon-edge supported secrets manager."⟩),
   ("address", ⟨true, false, "Validator address."⟩),
   ("bls_pubkey", ⟨true, false, "Validator public key."⟩),
   ("node_id", ⟨true, false, "Node ID."⟩)]

/-- The `AddError` summary attached when a given step fails (the source
strings, typos included); the address derivation is infallible and has
no message. -/
def stepMessage : Step → String
  | .genECDSA => "Unable to generate ECDSA key"
  | .genBLS => "Unable to create generate BLS ket"
  | .blsPubkeyDerive => "Unable to get BLS public key"
  | .genLibp2p => "Unable to generate network key"
  | .nodeIDDerive => "Unable to get nodeID"
  | .addressDerive => ""

/-- The first fallible step of the creation sequence that fails in a
given environment, with the error string it returns, or `none` when all
five fallible steps succeed. -/
def firstFailure (env : Env) : Option (Step × String) :=
  match env.GenerateAndEncodeECDSAPrivateKey with
  | .error err => some (.genECDSA, err)
  | .ok _ =>
    match env.GenerateAndEncodeBLSSecretKey with
    | .error err => some (.genBLS, err)
    | .ok (blsSecretKey, _) =>
      match env.BLSSecretKeyToPubkeyBytes blsSecretKey with
      | .error err => some (.blsPubkeyDerive, err)
      | .ok _ =>
        match env.GenerateAndEncodeLibp2pKey with
        | .error err => some (.genLibp2p, err)
        | .ok (libp2pKey, _) =>
          match env.IDFromPrivateKey libp2pKey with
          | .error err => some (.nodeIDDerive, err)
          | .ok _ => none

/-- The six-field record the creation sequence assembles in a given
environment, or `none` when some fallible step fails. -/
def createdRecord (env : Env) : Option secretsDataSourceModel :=
  match env.GenerateAndEncodeECDSAPrivateKey with
  | .error _ => none
  | .ok (validatorKey, validatorKeyEncoded) =>
    match env.GenerateAndEncodeBLSSecretKey with
    | .error _ => none
    | .ok (blsSecretKey, blsSecretKeyEncoded) =>
      match env.BLSSecretKeyToPubkeyBytes blsSecretKey with
      | .error _ => none
      | .ok pubkeyBytes =>
        match env.GenerateAndEncodeLibp2pKey with
        | .error _ => none
        | .ok (libp2pKey, libp2pKeyEncoded) =>
          match env.IDFromPrivateKey libp2pKey with
          | .error _ => none
          | .ok nodeID =>
            some
              { ValidatorKeyEncoded := validatorKeyEncoded
                Address := env.AddressString (env.PubKeyToAddress validatorKey.PublicKey)
                ValidatorBLSKeyEncoded := blsSecretKeyEncoded
                BLSPubkey := pubkeyBytes
                NetworkKeyEncoded := libp2pKeyEncoded
                NodeID := env.PeerIDString nodeID }

/-- Whether the final `State.Set` of the assembled record returns an
error diagnostic (only meaningful when all five fallible steps
succeed). -/
def stateWriteHasError (env : Env) : Bool :=
  match createdRecord env with
  | some r => hasError (env.StateSet r)
  | none => false

/-- Appending a diagnostic list that holds an error yields a list that
holds an error. -/
theorem hasError_append_right (a b : List Diagnostic)
    (h : hasError b = true) : hasError (a ++ b) = true := by
  unfold hasError at h ⊢
  simp only [List.any_append, h, Bool.or_true]

/-- The steps attempted, as determined by the first failure: the whole
sequence when every step succeeds, otherwise the prefix ending at the
failing step. -/
def stepsFor : Option (Step × String) → List Step
  | none =>
    [.genECDSA, .genBLS, .blsPubkeyDerive, .genLibp2p, .nodeIDDerive, .addressDerive]
  | some (.genECDSA, _) => [.genECDSA]
  | some (.genBLS, _) => [.genECDSA, .genBLS]
  | some (.blsPubkeyDerive, _) => [.genECDSA, .genBLS, .blsPubkeyDerive]
  | some (.genLibp2p, _) => [.genECDSA, .genBLS, .blsPubkeyDerive, .genLibp2p]
  | some (.nodeIDDerive, _) =>
    [.genECDSA, .genBLS, .blsPubkeyDerive, .genLibp2p, .nodeIDDerive]
  | some (.addressDerive, _) =>
    [.genECDSA, .genBLS, .blsPubkeyDerive, .genLibp2p, .nodeIDDerive, .addressDerive]

/-- The empty create request the framework never lets the resource
inspect anyway. -/
def req0 : CreateRequest := ⟨none, none⟩

/-- A fresh create response: null state, no diagnostics. -/
def resp0 : CreateResponse := ⟨none, []⟩

/-- A concrete environment in which every collaborator succeeds. -/
def envOk : Env where
  GenerateAndEncodeECDSAPrivateKey := .ok (⟨⟨7⟩⟩, "ecdsa-enc")
  GenerateAndEncodeBLSSecretKey := .ok (⟨3⟩, "bls-enc")
  BLSSecretKeyToPubkeyBytes := fun _ => .ok "bls-pub"
  GenerateAndEncodeLibp2pKey := .ok (⟨5⟩, "libp2p-enc")
  IDFromPrivateKey := fun _ => .ok ⟨6⟩
  PubKeyToAddress := fun k => ⟨k.val + 100⟩
  AddressString := fun _ => "0xAddr"
  PeerIDString := fun _ => "16UiuPeer"
  StateSet := fun _ => []

/-- `envOk` with a failing ECDSA generator. -/
def envFailECDSA : Env :=
  { envOk with GenerateAndEncodeECDSAPrivateKey := .error "entropy exhausted" }

/-- `envOk` with a failing BLS generator. -/
def envFailBLS : Env :=
  { envOk with GenerateAndEncodeBLSSecretKey := .error "bls boom" }

/-- `envOk` with a failing state write. -/
def envSetFail : Env :=
  { envOk with StateSet := fun _ => [⟨.error, "Error setting state", "conversion"⟩] }

/-- Claim C5: `Read` leaves the stored record unchanged — it performs no
recomputation and writes no field, so iterating `Read` any number of
times yields the same response as not calling it at all. -/
theorem read_noop (req : ReadRequest) (resp : ReadResponse) (n : Nat) :
    Read req resp = resp ∧ Nat.iterate (Read req) n resp = resp :=
  ⟨rfl, Function.iterate_fixed rfl n⟩

/-- Claim C6: `Update` leaves the stored record unchanged, whatever the
proposed plan and config in the update request. -/
theorem update_noop (req : UpdateRequest) (resp : UpdateResponse) :
    Update req resp = resp :=
  rfl

/-- Claim C7: `Read`, `Update` and `Delete` add no diagnostic (hence
never an error diagnostic), and `Delete` has no effect at all beyond the
framework's own removal of the state entry. -/
theorem rud_no_error_diagnostics (rreq : ReadRequest) (rresp : ReadResponse)
    (ureq : UpdateRequest) (uresp : UpdateResponse)
    (dreq : DeleteRequest) (dresp : DeleteResponse) :
    (Read rreq rresp).Diagnostics = rresp.Diagnostics ∧
    (Update ureq uresp).Diagnostics = uresp.Diagnostics ∧
    (Delete dreq dresp).Diagnostics = dresp.Diagnostics ∧
    Delete dreq dresp = dresp :=
  ⟨rfl, rfl, rfl, rfl⟩

/-- Claim C9: `Create` discards its request argument, so two invocations
whose external collaborators return the same values produce identical
responses and step traces whatever the requests contain. -/
theorem create_ignores_request (env : Env) (req1 req2 : CreateRequest)
    (resp : CreateResponse) :
    createRun env req1 resp = createRun env req2 resp :=
  rfl

/-- Claim C8, counterexample: the schema does not have exactly two
sensitive attributes — the three encoded-key attributes are all marked
sensitive. -/
theorem schema_two_sensitive_false :
    ¬ (schemaAttributes.filter fun a => a.2.Sensitive).length = 2 := by
  decide

/-- Claim C8, amended: the schema exposes exactly six computed string
attributes, of which exactly three are marked sensitive, and the
resource type name is the provider type name suffixed with
"_secrets". -/
theorem schema_shape :
    schemaAttributes.length = 6 ∧
    schemaAttributes.all (fun a => a.2.Computed) = true ∧
    (schemaAttributes.filter fun a => a.2.Sensitive).length = 3 ∧
    ∀ p : String, Metadata p = p ++ "_secrets" :=
  ⟨rfl, rfl, rfl, fun _ => rfl⟩

/-- Claim C1: creation is all-or-nothing — the response state is either
untouched or holds the complete six-field record, and whenever a
generation or derivation sub-step fails, `Create` reports an error
diagnostic and the state is left unchanged. -/
theorem create_all_or_nothing (env : Env) (req : CreateRequest)
    (resp : CreateResponse) :
    ((Create env req resp).State = resp.State ∨
      ∃ r, createdRecord env = some r ∧ (Create env req resp).State = some r) ∧
    (∀ s e, firstFailure env = some (s, e) →
      hasError (Create env req resp).Diagnostics = true ∧
      (Create env req resp).State = resp.State) := by
  unfold Create createRun createdRecord firstFailure
  cases h1 : env.GenerateAndEncodeECDSAPrivateKey with
  | error err => simp [h1, hasError, Diagnostic.isError]
  | ok p1 =>
    obtain ⟨vk, ve⟩ := p1
    cases h2 : env.GenerateAndEncodeBLSSecretKey with
    | error err => simp [h1, h2, hasError, Diagnostic.isError]
    | ok p2 =>
      obtain ⟨bk, be⟩ := p2
      cases h3 : env.BLSSecretKeyToPubkeyBytes bk with
      | error err => simp [h1, h2, h3, hasError, Diagnostic.isError]
      | ok pb =>
        cases h4 : env.GenerateAndEncodeLibp2pKey with
        | error err => simp [h1, h2, h3, h4, hasError, Diagnostic.isError]
        | ok p4 =>
          obtain ⟨lk, le⟩ := p4
          cases h5 : env.IDFromPrivateKey lk with
          | error err => simp [h1, h2, h3, h4, h5, hasError, Diagnostic.isError]
          | ok nid =>
            constructor
            · simp only [h1, h2, h3, h4, h5]
              split
              · exact Or.inl rfl
              · exact Or.inr ⟨_, rfl, rfl⟩
            · intro s e h
              simp [h1, h2, h3, h4, h5] at h

/-- Claim C1, witness: in an environment whose ECDSA generator fails,
`Create` reports an error and leaves the (null) state unchanged. -/
theorem create_all_or_nothing_witness :
    firstFailure envFailECDSA = some (Step.genECDSA, "entropy exhausted") ∧
    hasError (Create envFailECDSA req0 resp0).Diagnostics = true ∧
    (Create envFailECDSA req0 resp0).State = resp0.State :=
  ⟨rfl, (create_all_or_nothing envFailECDSA req0 resp0).2
    Step.genECDSA "entropy exhausted" rfl⟩

/-- Claim C3: the steps are attempted in exactly the source order —
ECDSA generation, BLS generation, BLS-pubkey derivation, libp2p
generation, node-ID derivation, address derivation — and the trace is
cut at the first failing step, so no later step is attempted. -/
theorem create_step_order (env : Env) (req : CreateRequest)
    (resp : CreateResponse) :
    (createRun env req resp).2 = stepsFor (firstFailure env) := by
  unfold createRun firstFailure
  cases h1 : env.GenerateAndEncodeECDSAPrivateKey with
  | error err => simp [h1, stepsFor]
  | ok p1 =>
    obtain ⟨vk, ve⟩ := p1
    cases h2 : env.GenerateAndEncodeBLSSecretKey with
    | error err => simp [h1, h2, stepsFor]
    | ok p2 =>
      obtain ⟨bk, be⟩ := p2
      cases h3 : env.BLSSecretKeyToPubkeyBytes bk with
      | error err => simp [h1, h2, h3, stepsFor]
      | ok pb =>
        cases h4 : env.GenerateAndEncodeLibp2pKey with
        | error err => simp [h1, h2, h3, h4, stepsFor]
        | ok p4 =>
          obtain ⟨lk, le⟩ := p4
          cases h5 : env.IDFromPrivateKey lk with
          | error err => simp [h1, h2, h3, h4, h5, stepsFor]
          | ok nid => simp [h1, h2, h3, h4, h5, stepsFor]

/-- Claim C4, counterexample: in an environment where all five fallible
generation/derivation steps succeed but the final state write returns an
error diagnostic, `Create` fails although none of the five steps failed,
so the five-step taxonomy is not exhaustive. -/
theorem create_fail_taxonomy_counterexample :
    hasError (Create envSetFail req0 resp0).Diagnostics = true ∧
    firstFailure envSetFail = none :=
  ⟨rfl, rfl⟩

/-- Claim C4, amended: starting from a fresh response, `Create` fails
exactly when one of the five fallible steps fails or the final state
write returns an error diagnostic; the first failing step
short-circuits the sequence, and its diagnostic carries the message
naming that step together with the step's error detail. -/
theorem create_fail_taxonomy (env : Env) (req : CreateRequest) :
    (hasError (Create env req resp0).Diagnostics = true ↔
      (firstFailure env ≠ none ∨ stateWriteHasError env = true)) ∧
    (∀ s e, firstFailure env = some (s, e) →
      (Create env req resp0).Diagnostics = [⟨.error, stepMessage s, e⟩]) := by
  unfold Create createRun firstFailure stateWriteHasError createdRecord
  cases h1 : env.GenerateAndEncodeECDSAPrivateKey with
  | error err => simp [h1, hasError, Diagnostic.isError, resp0, stepMessage]
  | ok p1 =>
    obtain ⟨vk, ve⟩ := p1
    cases h2 : env.GenerateAndEncodeBLSSecretKey with
    | error err => simp [h1, h2, hasError, Diagnostic.isError, resp0, stepMessage]
    | ok p2 =>
      obtain ⟨bk, be⟩ := p2
      cases h3 : env.BLSSecretKeyToPubkeyBytes bk with
      | error err => simp [h1, h2, h3, hasError, Diagnostic.isError, resp0, stepMessage]
      | ok pb =>
        cases h4 : env.GenerateAndEncodeLibp2pKey with
        | error err =>
          simp [h1, h2, h3, h4, hasError, Diagnostic.isError, resp0, stepMessage]
        | ok p4 =>
          obtain ⟨lk, le⟩ := p4
          cases h5 : env.IDFromPrivateKey lk with
          | error err =>
            simp [h1, h2, h3, h4, h5, hasError, Diagnostic.isError, resp0, stepMessage]
          | ok nid => simp [h1, h2, h3, h4, h5, resp0]

/-- Claim C4, witness: with a failing BLS generator, `Create` fails and
its sole diagnostic carries the BLS-step message (source string, typo
included) with the generator's error detail. -/
theorem create_fail_taxonomy_witness :
    hasError (Create envFailBLS req0 resp0).Diagnostics = true ∧
    (Create envFailBLS req0 resp0).Diagnostics =
      [⟨Severity.error, "Unable to create generate BLS ket", "bls boom"⟩] :=
  ⟨(create_fail_taxonomy envFailBLS req0).1.mpr (Or.inl (by decide)),
    (create_fail_taxonomy envFailBLS req0).2 Step.genBLS "bls boom" rfl⟩

/-- Claim C2: when `Create` succeeds (no error diagnostic, starting from
a fresh response) and each opaque collaborator honours its contract of
returning non-empty strings, the stored record has all six fields
non-empty, its address is derived (checksum rendering included) from the
public key of the very ECDSA keypair whose encoding it stores, its BLS
pubkey is derived from the very BLS secret key whose encoding it stores,
and its node ID is derived from the very libp2p private key whose
encoding it stores. -/
theorem create_success_fields (env : Env) (req : CreateRequest)
    (hsucc : hasError (Create env req resp0).Diagnostics = false)
    (hvne : ∀ k enc, env.GenerateAndEncodeECDSAPrivateKey = Except.ok (k, enc) → enc ≠ "")
    (hbne : ∀ k enc, env.GenerateAndEncodeBLSSecretKey = Except.ok (k, enc) → enc ≠ "")
    (hlne : ∀ k enc, env.GenerateAndEncodeLibp2pKey = Except.ok (k, enc) → enc ≠ "")
    (hpne : ∀ k bs, env.BLSSecretKeyToPubkeyBytes k = Except.ok bs → bs ≠ "")
    (hane : ∀ a, env.AddressString a ≠ "")
    (hnne : ∀ p, env.PeerIDString p ≠ "") :
    ∃ vk vkEnc bk bkEnc pb lk lkEnc nid,
      env.GenerateAndEncodeECDSAPrivateKey = Except.ok (vk, vkEnc) ∧
      env.GenerateAndEncodeBLSSecretKey = Except.ok (bk, bkEnc) ∧
      env.BLSSecretKeyToPubkeyBytes bk = Except.ok pb ∧
      env.GenerateAndEncodeLibp2pKey = Except.ok (lk, lkEnc) ∧
      env.IDFromPrivateKey lk = Except.ok nid ∧
      (Create env req resp0).State = some
        { ValidatorKeyEncoded := vkEnc
          Address := env.AddressString (env.PubKeyToAddress vk.PublicKey)
          ValidatorBLSKeyEncoded := bkEnc
          BLSPubkey := pb
          NetworkKeyEncoded := lkEnc
          NodeID := env.PeerIDString nid } ∧
      vkEnc ≠ "" ∧ bkEnc ≠ "" ∧ lkEnc ≠ "" ∧ pb ≠ "" ∧
      env.AddressString (env.PubKeyToAddress vk.PublicKey) ≠ "" ∧
      env.PeerIDString nid ≠ "" := by
  unfold Create createRun at hsucc ⊢
  cases h1 : env.GenerateAndEncodeECDSAPrivateKey with
  | error err => simp [h1, hasError, Diagnostic.isError, resp0] at hsucc
  | ok p1 =>
    obtain ⟨vk, ve⟩ := p1
    cases h2 : env.GenerateAndEncodeBLSSecretKey with
    | error err => simp [h1, h2, hasError, Diagnostic.isError, resp0] at hsucc
    | ok p2 =>
      obtain ⟨bk, be⟩ := p2
      cases h3 : env.BLSSecretKeyToPubkeyBytes bk with
      | error err => simp [h1, h2, h3, hasError, Diagnostic.isError, resp0] at hsucc
      | ok pb =>
        cases h4 : env.GenerateAndEncodeLibp2pKey with
        | error err => simp [h1, h2, h3, h4, hasError, Diagnostic.isError, resp0] at hsucc
        | ok p4 =>
          obtain ⟨lk, le⟩ := p4
          cases h5 : env.IDFromPrivateKey lk with
          | error err =>
            simp [h1, h2, h3, h4, h5, hasError, Diagnostic.isError, resp0] at hsucc
          | ok nid =>
            simp only [h1, h2, h3, h4, h5, resp0] at hsucc ⊢
            simp only [List.nil_append] at hsucc
            refine ⟨vk, ve, bk, be, pb, lk, le, nid, rfl, rfl, h3, rfl, h5, ?_,
              hvne _ _ h1, hbne _ _ h2, hlne _ _ h4, hpne _ _ h3, hane _, hnne _⟩
            simp [hsucc]

/-- Claim C2, witness: in the all-success environment, `Create` stores
the record whose six fields are exactly the collaborator outputs — the
address rendered from the generated ECDSA public key, the BLS pubkey
bytes derived from the generated BLS secret, the node ID rendered from
the generated libp2p key — and all of them are non-empty. -/
theorem create_success_fields_witness :
    ∃ vk vkEnc bk bkEnc pb lk lkEnc nid,
      envOk.GenerateAndEncodeECDSAPrivateKey = Except.ok (vk, vkEnc) ∧
      envOk.GenerateAndEncodeBLSSecretKey = Except.ok (bk, bkEnc) ∧
      envOk.BLSSecretKeyToPubkeyBytes bk = Except.ok pb ∧
      envOk.GenerateAndEncodeLibp2pKey = Except.ok (lk, lkEnc) ∧
      envOk.IDFromPrivateKey lk = Except.ok nid ∧
      (Create envOk req0 resp0).State = some
        { ValidatorKeyEncoded := vkEnc
          Address := envOk.AddressString (envOk.PubKeyToAddress vk.PublicKey)
          ValidatorBLSKeyEncoded := bkEnc
          BLSPubkey := pb
          NetworkKeyEncoded := lkEnc
          NodeID := envOk.PeerIDString nid } ∧
      vkEnc ≠ "" ∧ bkEnc ≠ "" ∧ lkEnc ≠ "" ∧ pb ≠ "" ∧
      envOk.AddressString (envOk.PubKeyToAddress vk.PublicKey) ≠ "" ∧
      envOk.PeerIDString nid ≠ "" :=
  create_success_fields envOk req0 rfl
    (by intro k enc h
        simp only [envOk, Except.ok.injEq, Prod.mk.injEq] at h
        rcases h with ⟨h1, h2⟩
        subst h2
        decide)
    (by intro k enc h
        simp only [envOk, Except.ok.injEq, Prod.mk.injEq] at h
        rcases h with ⟨h1, h2⟩
        subst h2
        decide)
    (by intro k enc h
        simp only [envOk, Except.ok.injEq, Prod.mk.injEq] at h
        rcases h with ⟨h1, h2⟩
        subst h2
        decide)
    (by intro k bs h
        simp only [envOk, Except.ok.injEq] at h
        subst h
        decide)
    (by intro a
        simp only [envOk]
        decide)
    (by intro p
        simp only [envOk]
        decide)

/-- Claim C10: even after all five generation/derivation steps succeed,
the final write of the record into state can itself return error
diagnostics; `Create` then appends them to its response, the operation
is reported as failed, and the state is left unchanged. -/
theorem create_state_write_failure (env : Env) (req : CreateRequest)
    (resp : CreateResponse) (r : secretsDataSourceModel)
    (hr : createdRecord env = some r)
    (hw : hasError (env.StateSet r) = true) :
    (Create env req resp).Diagnostics = resp.Diagnostics ++ env.StateSet r ∧
    hasError (Create env req resp).Diagnostics = true ∧
    (Create env req resp).State = resp.State := by
  unfold Create createRun
  unfold createdRecord at hr
  cases h1 : env.GenerateAndEncodeECDSAPrivateKey with
  | error err => simp [h1] at hr
  | ok p1 =>
    obtain ⟨vk, ve⟩ := p1
    cases h2 : env.GenerateAndEncodeBLSSecretKey with
    | error err => simp [h1, h2] at hr
    | ok p2 =>
      obtain ⟨bk, be⟩ := p2
      cases h3 : env.BLSSecretKeyToPubkeyBytes bk with
      | error err => simp [h1, h2, h3] at hr
      | ok pb =>
        cases h4 : env.GenerateAndEncodeLibp2pKey with
        | error err => simp [h1, h2, h3, h4] at hr
        | ok p4 =>
          obtain ⟨lk, le⟩ := p4
          cases h5 : env.IDFromPrivateKey lk with
          | error err => simp [h1, h2, h3, h4, h5] at hr
          | ok nid =>
            simp only [h1, h2, h3, h4, h5, Option.some.injEq] at hr
            subst hr
            refine ⟨?_, ?_, ?_⟩
            · simp only [h1, h2, h3, h4, h5]
            · simp only [h1, h2, h3, h4, h5]
              exact hasError_append_right _ _ hw
            · simp only [h1, h2, h3, h4, h5, hw]
              simp

/-- Claim C10, witness: with succeeding generators and a failing state
write, `Create` ends carrying exactly the write's error diagnostics,
reports failure, and the (null) state is unchanged. -/
theorem create_state_write_failure_witness :
    (Create envSetFail req0 resp0).Diagnostics =
      resp0.Diagnostics ++ envSetFail.StateSet
        ⟨"ecdsa-enc", "bls-enc", "libp2p-enc", "0xAddr", "bls-pub", "16UiuPeer"⟩ ∧
    hasError (Create envSetFail req0 resp0).Diagnostics = true ∧
    (Create envSetFail req0 resp0).State = resp0.State :=
  create_state_write_failure envSetFail req0 resp0
    ⟨"ecdsa-enc", "bls-enc", "libp2p-enc", "0xAddr", "bls-pub", "16UiuPeer"⟩ rfl rfl
